import Mathlib

/-!
Verification of the connect-rs Kafka Connect REST client.

The development shallowly embeds the two source modules:
  * `src/models.rs` — the wire data model and its serde decoders
    (derived `Deserialize` implementations are translated field by field,
    following serde's struct semantics: structs decode only from JSON
    objects, unknown fields are ignored, `Option` fields default to `None`
    when missing and decode `null` to `None`);
  * `src/lib.rs`  — the `Connect` facade: per-operation HTTP-status
    classifiers, the expand query-string builder, and the error taxonomy.

Rust values are modelled as plain Lean data: `u64` becomes `Nat` with an
explicit `< 2^64` range check at decode time, fallible operations return
`Option`/`Except`, and a Rust `panic!`/`unwrap` failure is modelled as
`Option.none`.
-/

namespace ConnectRs

/-- JSON values, the input of every decoder.  Numbers carry an `Int`
(the claims only exercise integral fields; Rust's `u64` decoding is
modelled with an explicit range check). -/
inductive Json where
  | null : Json
  | bool (b : Bool) : Json
  | num (n : Int) : Json
  | str (s : String) : Json
  | arr (xs : List Json) : Json
  | obj (fields : List (String × Json)) : Json

/-- serde: deserialize a JSON number into `u64` — fails on non-numbers,
negatives and values past `2^64`. -/
def Json.asU64 : Json → Option Nat
  | .num n => if 0 ≤ n ∧ n < (2 : Int) ^ 64 then some n.toNat else none
  | _ => none

/-- serde: deserialize a JSON string into `String`. -/
def Json.asString : Json → Option String
  | .str s => some s
  | _ => none

/-- serde semantics for a struct field of type `Option<T>`: a missing
field defaults to `None`, an explicit `null` decodes to `None`, and any
other value must decode as `T`. -/
def decodeOptField (dec : Json → Option α) (fields : List (String × Json))
    (key : String) : Option (Option α) :=
  match fields.lookup key with
  | none => some none
  | some .null => some none
  | some v => (dec v).map some

/-- serde: deserialize a JSON array elementwise. -/
def decodeList (dec : Json → Option α) : Json → Option (List α)
  | .arr xs => xs.mapM dec
  | _ => none

/-- serde: deserialize a JSON object into a `HashMap<String, String>`
(modelled as an association list in wire order). -/
def decodeStringMap : Json → Option (List (String × String))
  | .obj fields => fields.mapM fun (k, v) => (v.asString).map (k, ·)
  | _ => none

/-- `Status` (models.rs): closed enum of connector/task states. -/
inductive Status where
  | Paused | Running | Restarting | Failed | Unassigned | Stopped
deriving DecidableEq, Repr

/-- `Serialize` for `Status` with `rename_all = "UPPERCASE"`: each
variant serializes as the upper-cased variant name. -/
def Status.encode : Status → Json
  | .Paused => .str "PAUSED"
  | .Running => .str "RUNNING"
  | .Restarting => .str "RESTARTING"
  | .Failed => .str "FAILED"
  | .Unassigned => .str "UNASSIGNED"
  | .Stopped => .str "STOPPED"

/-- `Deserialize` for `Status` with `rename_all = "UPPERCASE"`: only the
six exact upper-case tokens are accepted. -/
def Status.decode : Json → Option Status
  | .str "PAUSED" => some .Paused
  | .str "RUNNING" => some .Running
  | .str "RESTARTING" => some .Restarting
  | .str "FAILED" => some .Failed
  | .str "UNASSIGNED" => some .Unassigned
  | .str "STOPPED" => some .Stopped
  | _ => none

/-- `TaskInfo` (models.rs). -/
structure TaskInfo where
  connector : String
  task : Nat
deriving DecidableEq, Repr

/-- Derived `Deserialize` for `TaskInfo`. -/
def TaskInfo.decode : Json → Option TaskInfo
  | .obj fields => do
    let connector ← fields.lookup "connector" >>= Json.asString
    let task ← fields.lookup "task" >>= Json.asU64
    pure ⟨connector, task⟩
  | _ => none

/-- `ConnectorState` (models.rs). -/
structure ConnectorState where
  connector : Option String
  state : Status
  worker_id : String
deriving DecidableEq, Repr

/-- Derived `Deserialize` for `ConnectorState`. -/
def ConnectorState.decode : Json → Option ConnectorState
  | .obj fields => do
    let connector ← decodeOptField Json.asString fields "connector"
    let state ← fields.lookup "state" >>= Status.decode
    let worker_id ← fields.lookup "worker_id" >>= Json.asString
    pure ⟨connector, state, worker_id⟩
  | _ => none

/-- `TaskStatus` (models.rs): `{id: u64, state: Status, worker_id:
String, trace: Option<String>}`. -/
structure TaskStatus where
  id : Nat
  state : Status
  worker_id : String
  trace : Option String
deriving DecidableEq, Repr

/-- Derived `Deserialize` for `TaskStatus`: `trace` is a plain optional
field, decoded independently of `state`. -/
def TaskStatus.decode : Json → Option TaskStatus
  | .obj fields => do
    let id ← fields.lookup "id" >>= Json.asU64
    let state ← fields.lookup "state" >>= Status.decode
    let worker_id ← fields.lookup "worker_id" >>= Json.asString
    let trace ← decodeOptField Json.asString fields "trace"
    pure ⟨id, state, worker_id, trace⟩
  | _ => none

/-- `ConnectorInfo` (models.rs); the Rust field `kind` is wire-renamed
to `"type"`. -/
structure ConnectorInfo where
  name : String
  config : List (String × String)
  tasks : List TaskInfo
  kind : String
deriving DecidableEq, Repr

/-- Derived `Deserialize` for `ConnectorInfo`. -/
def ConnectorInfo.decode : Json → Option ConnectorInfo
  | .obj fields => do
    let name ← fields.lookup "name" >>= Json.asString
    let config ← fields.lookup "config" >>= decodeStringMap
    let tasks ← fields.lookup "tasks" >>= decodeList TaskInfo.decode
    let kind ← fields.lookup "type" >>= Json.asString
    pure ⟨name, config, tasks, kind⟩
  | _ => none

/-- `ConnectorStatus` (models.rs); the Rust field `kind` is wire-renamed
to `"type"`. -/
structure ConnectorStatus where
  connector : ConnectorState
  name : String
  tasks : List TaskStatus
  kind : String
deriving DecidableEq, Repr

/-- Derived `Deserialize` for `ConnectorStatus`. -/
def ConnectorStatus.decode : Json → Option ConnectorStatus
  | .obj fields => do
    let connector ← fields.lookup "connector" >>= ConnectorState.decode
    let name ← fields.lookup "name" >>= Json.asString
    let tasks ← fields.lookup "tasks" >>= decodeList TaskStatus.decode
    let kind ← fields.lookup "type" >>= Json.asString
    pure ⟨connector, name, tasks, kind⟩
  | _ => none

/-- `Connector` (models.rs): two optional components. -/
structure Connector where
  info : Option ConnectorInfo
  status : Option ConnectorStatus
deriving DecidableEq, Repr

/-- Derived `Deserialize` for `Connector`: both fields are `Option`, so
each is independently defaulted/decoded; nothing enforces that at least
one is present. -/
def Connector.decode : Json → Option Connector
  | .obj fields => do
    let info ← decodeOptField ConnectorInfo.decode fields "info"
    let status ← decodeOptField ConnectorStatus.decode fields "status"
    pure ⟨info, status⟩
  | _ => none

/-- `Connector::name` (models.rs): returns `info.name` when info is
present, otherwise unwraps `status`.  The Rust `unwrap` panics when both
fields are absent; the panic is modelled as `none`. -/
def Connector.name (c : Connector) : Option String :=
  if c.info.isSome then c.info.map ConnectorInfo.name
  else c.status.map ConnectorStatus.name

/-- `SourceConnectorOffset<P, O>` (models.rs): generic partition/offset
pair of a source connector. -/
structure SourceConnectorOffset (P O : Type) where
  partition : P
  offset : O
deriving DecidableEq, Repr

/-- `SinkConnectorOffsetPartition` (models.rs). -/
structure SinkConnectorOffsetPartition where
  kafka_topic : String
  kafka_partition : Nat
deriving DecidableEq, Repr

/-- Derived `Deserialize` for `SinkConnectorOffsetPartition`. -/
def SinkConnectorOffsetPartition.decode : Json → Option SinkConnectorOffsetPartition
  | .obj fields => do
    let kafka_topic ← fields.lookup "kafka_topic" >>= Json.asString
    let kafka_partition ← fields.lookup "kafka_partition" >>= Json.asU64
    pure ⟨kafka_topic, kafka_partition⟩
  | _ => none

/-- `SinkConnectorOffsetOffset` (models.rs). -/
structure SinkConnectorOffsetOffset where
  offset : String
deriving DecidableEq, Repr

/-- Derived `Deserialize` for `SinkConnectorOffsetOffset`. -/
def SinkConnectorOffsetOffset.decode : Json → Option SinkConnectorOffsetOffset
  | .obj fields => do
    let offset ← fields.lookup "offset" >>= Json.asString
    pure ⟨offset⟩
  | _ => none

/-- `SinkConnectorOffset` (models.rs): the fixed sink-variant shape. -/
structure SinkConnectorOffset where
  partition : SinkConnectorOffsetPartition
  offset : SinkConnectorOffsetOffset
deriving DecidableEq, Repr

/-- Derived `Deserialize` for `SinkConnectorOffset`. -/
def SinkConnectorOffset.decode : Json → Option SinkConnectorOffset
  | .obj fields => do
    let partition ← fields.lookup "partition" >>= SinkConnectorOffsetPartition.decode
    let offset ← fields.lookup "offset" >>= SinkConnectorOffsetOffset.decode
    pure ⟨partition, offset⟩
  | _ => none

/-- Derived `Deserialize` for `SourceConnectorOffset<P, O>`, given the
caller-supplied decoders for the generic parameters.  `P` and `O` are
opaque type parameters to the derive, so both fields are required. -/
def SourceConnectorOffset.decode (decP : Json → Option P) (decO : Json → Option O) :
    Json → Option (SourceConnectorOffset P O)
  | .obj fields => do
    let partition ← fields.lookup "partition" >>= decP
    let offset ← fields.lookup "offset" >>= decO
    pure ⟨partition, offset⟩
  | _ => none

/-- `ConnectorOffset<P, O>` (models.rs): untagged union of the two
offset shapes. -/
inductive ConnectorOffset (P O : Type) where
  | Source (s : SourceConnectorOffset P O) : ConnectorOffset P O
  | Sink (s : SinkConnectorOffset) : ConnectorOffset P O
deriving DecidableEq, Repr

/-- The serde_derive failure message for the untagged helper enum
`Inner` of `ConnectorOffset`'s manual `Deserialize` impl. -/
def untaggedInnerError : String :=
  "data did not match any variant of untagged enum Inner"

/-- Manual `Deserialize` for `ConnectorOffset` (models.rs lines
145-170): delegates to the untagged helper enum `Inner`, whose derive
tries the variants in declaration order — `Source` first, then `Sink` —
and on overall failure wraps serde's untagged error message in a custom
error. -/
def ConnectorOffset.deserialize (decP : Json → Option P) (decO : Json → Option O)
    (j : Json) : Except String (ConnectorOffset P O) :=
  match SourceConnectorOffset.decode decP decO j with
  | some s => .ok (.Source s)
  | none =>
    match SinkConnectorOffset.decode j with
    | some s => .ok (.Sink s)
    | none => .error ("Failed to deserialize ConnectorOffset: " ++ untaggedInnerError)

/-- `ErrorMessage` (models.rs): body of a bad-request response. -/
structure ErrorMessage where
  error_code : Nat
  message : String
deriving DecidableEq, Repr

/-- Derived `Deserialize` for `ErrorMessage` (`error_code` is `u16`). -/
def ErrorMessage.decode : Json → Option ErrorMessage
  | .obj fields => do
    let error_code ← fields.lookup "error_code" >>= Json.asU64
    if error_code < 2 ^ 16 then
      let message ← fields.lookup "message" >>= Json.asString
      pure ⟨error_code, message⟩
    else none
  | _ => none

/-- `ConnectError` (lib.rs): the closed error taxonomy.  Error payloads
that in Rust are foreign error values (`anyhow::Error`,
`reqwest::Error`, `reqwest_middleware::Error`) are modelled as their
message strings. -/
inductive ConnectError where
  | BadRequest (msg : ErrorMessage)
  | RebalancingInProgress
  | Unknown (msg : String)
  | InternalError
  | InvalidExpandOption
  | RequestError (e : String)
  | MiddlewareError (e : String)
  | ConnectorNotFound (name : String)
deriving DecidableEq, Repr

/-- `Result<T>` (lib.rs). -/
abbrev ConnectResult (α : Type) := Except ConnectError α

/-- A raw HTTP response as seen by the facade after a successful
`send()`: status code plus JSON body (`Json.null` when the body is
irrelevant). -/
structure HttpResponse where
  status : Nat
  body : Json

/-- Outcome of `client.put(...).send().await`: either a
transport/middleware failure (propagated by `?`) or a raw response of
any status. -/
inductive SendOutcome where
  | failure (e : String)
  | response (r : HttpResponse)

/-- `Connect::connectors` up to the network call (lib.rs lines
104-121): builds the endpoint with the expand query string and
short-circuits with `InvalidExpandOption` when the string is empty,
i.e. before any request is issued.  Returns the URL the request would
be sent to. -/
def connectors_endpoint (address : String) (expand_status expand_info : Bool) :
    ConnectResult String :=
  let endpoint := address ++ "/connectors"
  let expand :=
    match expand_status, expand_info with
    | true, true => "?expand=status&expand=info"
    | false, true => "?expand=info"
    | true, false => "?expand=status"
    | false, false => ""
  if expand.isEmpty then .error .InvalidExpandOption
  else .ok (endpoint ++ expand)

/-- Response classification of `Connect::create_connector` (lib.rs
lines 132-140): 201 parses the body as `ConnectorInfo` (a parse failure
propagates as `RequestError` via `?`), 409 is `RebalancingInProgress`,
400 parses the body as `ErrorMessage` into `BadRequest`, and every
other status falls to the catch-all arm, which prints the body and
returns `InternalError`. -/
def create_connector_classify (resp : HttpResponse) : ConnectResult ConnectorInfo :=
  if resp.status = 201 then
    match ConnectorInfo.decode resp.body with
    | some info => .ok info
    | none => .error (.RequestError "error decoding response body")
  else if resp.status = 409 then .error .RebalancingInProgress
  else if resp.status = 400 then
    match ErrorMessage.decode resp.body with
    | some msg => .error (.BadRequest msg)
    | none => .error (.RequestError "error decoding response body")
  else .error .InternalError

/-- Top-level `Option<T>` deserialization (reqwest `json()` into
`Option<ConnectorStatus>`): `null` is `None`, anything else must decode
as `T`. -/
def decodeOptTop (dec : Json → Option α) : Json → Option (Option α)
  | .null => some none
  | j => (dec j).map some

/-- Response classification of `Connect::restart_connector` (lib.rs
lines 158-169): 204/200 give `Ok(None)`, 202 parses the body as an
`Option<ConnectorStatus>`, 404 is `ConnectorNotFound` with the
requested name, 409 is `RebalancingInProgress`, 500 is `InternalError`,
and anything else is `Unknown` carrying the status code in its
message. -/
def restart_connector_classify (name : String) (resp : HttpResponse) :
    ConnectResult (Option ConnectorStatus) :=
  if resp.status = 204 ∨ resp.status = 200 then .ok none
  else if resp.status = 202 then
    match decodeOptTop ConnectorStatus.decode resp.body with
    | some v => .ok v
    | none => .error (.RequestError "error decoding response body")
  else if resp.status = 404 then .error (.ConnectorNotFound name)
  else if resp.status = 409 then .error .RebalancingInProgress
  else if resp.status = 500 then .error .InternalError
  else .error (.Unknown ("Unrecognizable error for status code " ++ toString resp.status))

/-- `Connect::pause_connector` (lib.rs lines 202-208): `?` propagates a
send failure as a middleware error; the response status is never
inspected and the function returns `Ok(())`. -/
def pause_connector (out : SendOutcome) : ConnectResult Unit :=
  match out with
  | .failure e => .error (.MiddlewareError e)
  | .response _ => .ok ()

/-- `Connect::resume_connector` (lib.rs lines 211-217): identical shape
to `pause_connector`. -/
def resume_connector (out : SendOutcome) : ConnectResult Unit :=
  match out with
  | .failure e => .error (.MiddlewareError e)
  | .response _ => .ok ()

/-- `Connect::stop_connector` (lib.rs lines 220-226): identical shape
to `pause_connector`. -/
def stop_connector (out : SendOutcome) : ConnectResult Unit :=
  match out with
  | .failure e => .error (.MiddlewareError e)
  | .response _ => .ok ()

/-- `charsStartWith p s`: the char list `p` is an initial segment of
`s` (helper for substring search). -/
def charsStartWith : List Char → List Char → Bool
  | [], _ => true
  | _ :: _, [] => false
  | p :: ps, c :: cs => p == c && charsStartWith ps cs

/-- `charsHaveSub s p`: the char list `p` occurs contiguously in `s`. -/
def charsHaveSub (pat : List Char) : List Char → Bool
  | [] => charsStartWith pat []
  | c :: cs => charsStartWith pat (c :: cs) || charsHaveSub pat cs

/-- `hasSubstr s pat`: `pat` occurs as a contiguous substring of `s` —
used to state whether an error message names a given shape. -/
def hasSubstr (s pat : String) : Bool :=
  charsHaveSub pat.toList s.toList

/-- Sample caller-supplied decoder for the generic source-offset
parameters: reads a `u64` out of a `{"custom": n}` object (fails on
anything else). -/
def customU64 : Json → Option Nat
  | .obj fields => fields.lookup "custom" >>= Json.asU64
  | _ => none

/-- Wire encoding used when stating that a `trace` field is present or
absent in a `TaskStatus` record. -/
def traceField : Option String → List (String × Json)
  | none => []
  | some t => [("trace", .str t)]

/-- The spec's sink-style example partition value. -/
def sinkExamplePartition : Json :=
  .obj [("kafka_topic", .str "t"), ("kafka_partition", .num 0)]

/-- The spec's sink-style example offset value. -/
def sinkExampleOffset : Json :=
  .obj [("offset", .str "5")]

/-- The spec's sink-style example record
`{"partition":{"kafka_topic":"t","kafka_partition":0},"offset":{"offset":"5"}}`. -/
def sinkExample : Json :=
  .obj [("partition", sinkExamplePartition), ("offset", sinkExampleOffset)]

/-- The spec's source-style example record
`{"partition":{"custom":1},"offset":{"custom":2}}`. -/
def sourceExample : Json :=
  .obj [("partition", .obj [("custom", .num 1)]), ("offset", .obj [("custom", .num 2)])]

/-- C1 counterexample: on an HTTP 500 response — a non-success status —
all three of `pause_connector`, `resume_connector` and `stop_connector`
return success instead of an `Unknown` error, refuting the claim. -/
theorem c1_counterexample :
    pause_connector (.response ⟨500, .null⟩) = .ok () ∧
    resume_connector (.response ⟨500, .null⟩) = .ok () ∧
    stop_connector (.response ⟨500, .null⟩) = .ok () :=
  ⟨rfl, rfl, rfl⟩

/-- C1 (amended): `pause_connector`, `resume_connector` and
`stop_connector` never inspect the HTTP status — every response, of any
status, yields success, and only a transport-level send failure
propagates (as `MiddlewareError`), never as `Unknown`. -/
theorem c1_pause_resume_stop_ignore_status :
    (∀ r : HttpResponse,
      pause_connector (.response r) = .ok () ∧
      resume_connector (.response r) = .ok () ∧
      stop_connector (.response r) = .ok ()) ∧
    (∀ e : String,
      pause_connector (.failure e) = .error (.MiddlewareError e) ∧
      resume_connector (.failure e) = .error (.MiddlewareError e) ∧
      stop_connector (.failure e) = .error (.MiddlewareError e)) :=
  ⟨fun _ => ⟨rfl, rfl, rfl⟩, fun _ => ⟨rfl, rfl, rfl⟩⟩

/-- C2 counterexample: a record matching neither shape fails, but the
error message is the fixed untagged-enum message, which names neither
the Source nor the Sink shape (in either capitalization), refuting the
claim's final clause. -/
theorem c2_counterexample :
    SourceConnectorOffset.decode (P := Nat) (O := Nat) Json.asU64 Json.asU64 (.str "x") = none ∧
    SinkConnectorOffset.decode (.str "x") = none ∧
    ConnectorOffset.deserialize (P := Nat) (O := Nat) Json.asU64 Json.asU64 (.str "x") =
      .error ("Failed to deserialize ConnectorOffset: " ++ untaggedInnerError) ∧
    hasSubstr ("Failed to deserialize ConnectorOffset: " ++ untaggedInnerError) "Source" = false ∧
    hasSubstr ("Failed to deserialize ConnectorOffset: " ++ untaggedInnerError) "source" = false ∧
    hasSubstr ("Failed to deserialize ConnectorOffset: " ++ untaggedInnerError) "Sink" = false ∧
    hasSubstr ("Failed to deserialize ConnectorOffset: " ++ untaggedInnerError) "sink" = false :=
  ⟨rfl, rfl, rfl, by decide, by decide, by decide, by decide⟩

/-- C2 (amended): decoding attempts the Source variant first and falls
back to the Sink variant, in that fixed order; the sink-style example
record decodes to the Sink variant whenever the generic decoders reject
its partition or offset value; the source-style example record decodes
to the Source variant under matching generic decoders; and a record
matching neither shape fails with an error naming the
`ConnectorOffset` union (serde's untagged-enum message), not each
attempted shape. -/
theorem c2_offset_decode_amended (P O : Type) (decP : Json → Option P)
    (decO : Json → Option O) (j : Json) (s : SourceConnectorOffset P O)
    (k : SinkConnectorOffset) (p : P) (o : O) :
    (SourceConnectorOffset.decode decP decO j = some s →
      ConnectorOffset.deserialize decP decO j = .ok (.Source s)) ∧
    (SourceConnectorOffset.decode decP decO j = none →
      SinkConnectorOffset.decode j = some k →
      ConnectorOffset.deserialize decP decO j = .ok (.Sink k)) ∧
    ((decP sinkExamplePartition = none ∨ decO sinkExampleOffset = none) →
      ConnectorOffset.deserialize decP decO sinkExample = .ok (.Sink ⟨⟨"t", 0⟩, ⟨"5"⟩⟩)) ∧
    (decP (.obj [("custom", .num 1)]) = some p →
      decO (.obj [("custom", .num 2)]) = some o →
      ConnectorOffset.deserialize decP decO sourceExample = .ok (.Source ⟨p, o⟩)) ∧
    (SourceConnectorOffset.decode decP decO j = none →
      SinkConnectorOffset.decode j = none →
      ConnectorOffset.deserialize decP decO j =
        .error ("Failed to deserialize ConnectorOffset: " ++ untaggedInnerError)) := by
  have hsink : SourceConnectorOffset.decode decP decO sinkExample =
      (decP sinkExamplePartition).bind
        (fun pp => (decO sinkExampleOffset).bind fun oo => some ⟨pp, oo⟩) := rfl
  have hsrc : SourceConnectorOffset.decode decP decO sourceExample =
      (decP (.obj [("custom", .num 1)])).bind
        (fun pp => (decO (.obj [("custom", .num 2)])).bind fun oo => some ⟨pp, oo⟩) := rfl
  refine ⟨fun h => ?_, fun h1 h2 => ?_, fun h => ?_, fun h1 h2 => ?_, fun h1 h2 => ?_⟩
  · simp [ConnectorOffset.deserialize, h]
  · simp [ConnectorOffset.deserialize, h1, h2]
  · have hnone : SourceConnectorOffset.decode decP decO sinkExample = none := by
      rcases h with h | h
      · rw [hsink, h]; rfl
      · rw [hsink]; cases hp : decP sinkExamplePartition <;> simp [h]
    simp only [ConnectorOffset.deserialize, hnone]
    rfl
  · have hsome : SourceConnectorOffset.decode decP decO sourceExample = some ⟨p, o⟩ := by
      rw [hsrc, h1, h2]; rfl
    simp [ConnectorOffset.deserialize, hsome]
  · simp [ConnectorOffset.deserialize, h1, h2]

/-- C2 witness: the amended theorem at concrete decoders — `u64`
decoders (which reject the sink record's object-valued fields) send the
sink-style example to the Sink variant, and `{"custom": n}` decoders
send the source-style example to the Source variant. -/
theorem c2_offset_decode_amended_witness :
    ConnectorOffset.deserialize (P := Nat) (O := Nat) Json.asU64 Json.asU64 sinkExample =
      .ok (.Sink ⟨⟨"t", 0⟩, ⟨"5"⟩⟩) ∧
    ConnectorOffset.deserialize customU64 customU64 sourceExample =
      .ok (.Source ⟨1, 2⟩) := by
  refine ⟨?_, ?_⟩
  · exact (c2_offset_decode_amended Nat Nat Json.asU64 Json.asU64 (.str "x")
      ⟨0, 0⟩ ⟨⟨"t", 0⟩, ⟨"5"⟩⟩ 0 0).2.2.1 (Or.inl rfl)
  · exact (c2_offset_decode_amended Nat Nat customU64 customU64 (.str "x")
      ⟨0, 0⟩ ⟨⟨"t", 0⟩, ⟨"5"⟩⟩ 1 2).2.2.2.1 rfl rfl

/-- C3 counterexample: status 404 on create — a status outside
{201, 400, 409} — is classified as `InternalError`, not as an `Unknown`
error carrying the raw code, refuting the claim's catch-all clause. -/
theorem c3_counterexample :
    create_connector_classify ⟨404, .null⟩ = .error .InternalError ∧
    ¬ ∃ m : String, create_connector_classify ⟨404, .null⟩ = .error (.Unknown m) := by
  refine ⟨rfl, ?_⟩
  rintro ⟨m, h⟩
  exact absurd h (by simp [create_connector_classify])

/-- C3 (amended): the create classifier maps 201 to success with the
parsed `ConnectorInfo`, 409 to `RebalancingInProgress`, 400 to
`BadRequest` with the parsed `ErrorMessage`, and every other status —
500 included — to `InternalError`; no status other than 201 is treated
as success and none maps to `Unknown`. -/
theorem c3_create_classifier_amended (status : Nat) (body : Json)
    (info : ConnectorInfo) (msg : ErrorMessage) :
    (ConnectorInfo.decode body = some info →
      create_connector_classify ⟨201, body⟩ = .ok info) ∧
    (create_connector_classify ⟨409, body⟩ = .error .RebalancingInProgress) ∧
    (ErrorMessage.decode body = some msg →
      create_connector_classify ⟨400, body⟩ = .error (.BadRequest msg)) ∧
    (status ≠ 201 → status ≠ 409 → status ≠ 400 →
      create_connector_classify ⟨status, body⟩ = .error .InternalError) := by
  refine ⟨fun h => ?_, ?_, fun h => ?_, fun h1 h2 h3 => ?_⟩ <;>
    simp [create_connector_classify, *]

/-- C3 witness: the amended classifier at concrete inputs — a parsed
201 body, a parsed 400 body, and the unlisted status 418. -/
theorem c3_create_classifier_amended_witness :
    create_connector_classify ⟨201, .obj [("name", .str "t"), ("config", .obj []),
        ("tasks", .arr []), ("type", .str "source")]⟩ = .ok ⟨"t", [], [], "source"⟩ ∧
    create_connector_classify ⟨400, .obj [("error_code", .num 400),
        ("message", .str "bad")]⟩ = .error (.BadRequest ⟨400, "bad"⟩) ∧
    create_connector_classify ⟨418, .null⟩ = .error .InternalError := by
  refine ⟨?_, ?_, ?_⟩
  · exact (c3_create_classifier_amended 418 (.obj [("name", .str "t"), ("config", .obj []),
      ("tasks", .arr []), ("type", .str "source")]) ⟨"t", [], [], "source"⟩ ⟨400, "bad"⟩).1 rfl
  · exact (c3_create_classifier_amended 418 (.obj [("error_code", .num 400),
      ("message", .str "bad")]) ⟨"t", [], [], "source"⟩ ⟨400, "bad"⟩).2.2.1 rfl
  · exact (c3_create_classifier_amended 418 .null ⟨"t", [], [], "source"⟩
      ⟨400, "bad"⟩).2.2.2 (by decide) (by decide) (by decide)

/-- C4: for every expand-flag pair other than `(false, false)` the
connectors endpoint carries exactly the requested `expand` parameters,
with status before info when both are set; `(false, false)`
short-circuits with `InvalidExpandOption` before any request URL is
produced. -/
theorem c4_connectors_expand (address : String) :
    connectors_endpoint address false false = .error .InvalidExpandOption ∧
    connectors_endpoint address true true =
      .ok (address ++ "/connectors" ++ "?expand=status&expand=info") ∧
    connectors_endpoint address true false =
      .ok (address ++ "/connectors" ++ "?expand=status") ∧
    connectors_endpoint address false true =
      .ok (address ++ "/connectors" ++ "?expand=info") :=
  ⟨rfl, rfl, rfl, rfl⟩

/-- C5: the restart classifier maps 200 and 204 to empty success, 202
to success with the optionally-present parsed `ConnectorStatus`, 404 to
`ConnectorNotFound` with the requested name, 409 to
`RebalancingInProgress`, 500 to `InternalError`, and every other status
to `Unknown` carrying the raw status code. -/
theorem c5_restart_classifier (name : String) (status : Nat) (body : Json)
    (v : Option ConnectorStatus) :
    restart_connector_classify name ⟨200, body⟩ = .ok none ∧
    restart_connector_classify name ⟨204, body⟩ = .ok none ∧
    (decodeOptTop ConnectorStatus.decode body = some v →
      restart_connector_classify name ⟨202, body⟩ = .ok v) ∧
    restart_connector_classify name ⟨404, body⟩ = .error (.ConnectorNotFound name) ∧
    restart_connector_classify name ⟨409, body⟩ = .error .RebalancingInProgress ∧
    restart_connector_classify name ⟨500, body⟩ = .error .InternalError ∧
    (status ≠ 200 → status ≠ 204 → status ≠ 202 → status ≠ 404 → status ≠ 409 →
      status ≠ 500 →
      restart_connector_classify name ⟨status, body⟩ =
        .error (.Unknown ("Unrecognizable error for status code " ++ toString status))) := by
  refine ⟨?_, ?_, fun h => ?_, ?_, ?_, ?_, fun h1 h2 h3 h4 h5 h6 => ?_⟩ <;>
    simp [restart_connector_classify, *]

/-- C5 witness: the restart classifier at concrete inputs, including a
202 with a `null` (absent) body, a 404 carrying the requested name, and
the unlisted status 418. -/
theorem c5_restart_classifier_witness :
    restart_connector_classify "c" ⟨200, .null⟩ = .ok none ∧
    restart_connector_classify "c" ⟨202, .null⟩ = .ok none ∧
    restart_connector_classify "c" ⟨404, .null⟩ = .error (.ConnectorNotFound "c") ∧
    restart_connector_classify "c" ⟨418, .null⟩ =
      .error (.Unknown "Unrecognizable error for status code 418") := by
  refine ⟨(c5_restart_classifier "c" 418 .null none).1,
    (c5_restart_classifier "c" 418 .null none).2.2.1 rfl,
    (c5_restart_classifier "c" 418 .null none).2.2.2.1,
    (c5_restart_classifier "c" 418 .null none).2.2.2.2.2.2 (by decide) (by decide)
      (by decide) (by decide) (by decide) (by decide)⟩

/-- C6: each of the six `Status` variants encodes to its exact
upper-case wire token, and decoding the encoding yields the variant
back. -/
theorem c6_status_roundtrip :
    (∀ s : Status, Status.decode (Status.encode s) = some s) ∧
    Status.encode .Paused = .str "PAUSED" ∧
    Status.encode .Running = .str "RUNNING" ∧
    Status.encode .Restarting = .str "RESTARTING" ∧
    Status.encode .Failed = .str "FAILED" ∧
    Status.encode .Unassigned = .str "UNASSIGNED" ∧
    Status.encode .Stopped = .str "STOPPED" :=
  ⟨fun s => by cases s <;> rfl, rfl, rfl, rfl, rfl, rfl, rfl⟩

/-- C7: `Connector.name` returns `info.name` when info is present and
`status.name` when only status is present; with both fields absent the
unchecked unwrap panics, modelled as `none`. -/
theorem c7_connector_name (c : Connector) (i : ConnectorInfo) (s : ConnectorStatus) :
    (c.info = some i → c.name = some i.name) ∧
    (c.info = none → c.status = some s → c.name = some s.name) ∧
    (c.info = none → c.status = none → c.name = none) := by
  refine ⟨fun h => ?_, fun h1 h2 => ?_, fun h1 h2 => ?_⟩ <;>
    simp [Connector.name, *]

/-- C7 witness: `Connector.name` on a connector with only info, one
with only status, and the invalid both-absent value. -/
theorem c7_connector_name_witness :
    (Connector.mk (some ⟨"a", [], [], "source"⟩) none).name = some "a" ∧
    (Connector.mk none (some ⟨⟨none, .Running, "w"⟩, "b", [], "sink"⟩)).name = some "b" ∧
    (Connector.mk none none).name = none := by
  refine ⟨(c7_connector_name (Connector.mk (some ⟨"a", [], [], "source"⟩) none)
      ⟨"a", [], [], "source"⟩ ⟨⟨none, .Running, "w"⟩, "b", [], "sink"⟩).1 rfl,
    (c7_connector_name (Connector.mk none (some ⟨⟨none, .Running, "w"⟩, "b", [], "sink"⟩))
      ⟨"a", [], [], "source"⟩ ⟨⟨none, .Running, "w"⟩, "b", [], "sink"⟩).2.1 rfl rfl,
    (c7_connector_name (Connector.mk none none)
      ⟨"a", [], [], "source"⟩ ⟨⟨none, .Running, "w"⟩, "b", [], "sink"⟩).2.2 rfl rfl⟩

/-- C9 counterexample: a syntactically well-formed wire record with
state `RUNNING` and a `trace` field decodes successfully, so a decoded
`TaskStatus` whose state is not `Failed` can carry a trace, refuting
the claimed invariant. -/
theorem c9_counterexample :
    TaskStatus.decode (.obj [("id", .num 0), ("state", .str "RUNNING"),
        ("worker_id", .str "w"), ("trace", .str "boom")]) =
      some ⟨0, .Running, "w", some "boom"⟩ ∧
    Status.Running ≠ Status.Failed :=
  ⟨rfl, by decide⟩

/-- C9 (amended): `TaskStatus` decoding places no constraint tying
`trace` to `state` — for every state and every optional trace value the
record decodes and both are preserved as supplied. -/
theorem c9_trace_unconstrained (st : Status) (w : String) (tr : Option String) :
    TaskStatus.decode (.obj ([("id", .num 7), ("state", Status.encode st),
        ("worker_id", .str w)] ++ traceField tr)) = some ⟨7, st, w, tr⟩ := by
  cases st <;> cases tr <;> rfl

/-- C10: the empty JSON object decodes as a `Connector` with both
fields absent — the at-least-one-present invariant is not enforced at
decode time — and `Connector.name` then panics (modelled as `none`) on
that value. -/
theorem c10_empty_object_decodes :
    Connector.decode (.obj []) = some ⟨none, none⟩ ∧
    (Connector.mk none none).name = none :=
  ⟨rfl, rfl⟩

end ConnectRs
